import Mathlib

/-!
Verification development for the POSIX clock/sleep module
(`src/platform/posix/posix_clock.c`).

The module exposes two operations, `nni_clock` (monotonic milliseconds)
and `nni_msleep` (blocking sleep), each compiled against one of three
backends:

* modern monotonic: `clock_gettime(NNG_USE_CLOCKID, &ts)` converted by
  `ts.tv_sec * 1000 + ts.tv_nsec / 1000000`;
* Apple hardware tick: `mach_absolute_time()` scaled by the
  `mach_timebase_info` numerator/denominator, then divided by `10000000`;
* legacy wall clock: `gettimeofday` converted by
  `tv.tv_sec * 1000 + tv.tv_usec / 1000`, paired with a poll-based sleep.

The embedding below models each conversion as a pure function of the
values the platform syscalls return, the nanosleep retry loop as a
function of the sequence of kernel responses, and the poll loop as a
function of the sequence of successive clock readings.
-/

/-- `struct timespec`: seconds plus nanoseconds, as filled in by
`clock_gettime`. Monotonic-clock readings are non-negative, so the
fields are `Nat`. -/
structure Timespec where
  tv_sec : Nat
  tv_nsec : Nat
deriving DecidableEq, Repr

/-- `struct timeval`: seconds plus microseconds, as filled in by
`gettimeofday`. -/
structure Timeval where
  tv_sec : Nat
  tv_usec : Nat
deriving DecidableEq, Repr

/-- Total nanoseconds represented by a `Timespec`. -/
def tsTotalNs (ts : Timespec) : Nat :=
  ts.tv_sec * 1000000000 + ts.tv_nsec

/-- Total microseconds represented by a `Timeval`. -/
def tvTotalUs (tv : Timeval) : Nat :=
  tv.tv_sec * 1000000 + tv.tv_usec

/-- Millisecond conversion of the modern monotonic backend of `nni_clock`:
`msec = ts.tv_sec; msec *= 1000; msec += ts.tv_nsec / 1000000`. -/
def clockFromTimespec (ts : Timespec) : Nat :=
  ts.tv_sec * 1000 + ts.tv_nsec / 1000000

/-- Millisecond conversion of the legacy `gettimeofday` backend of
`nni_clock`: `ms = tv.tv_sec; ms *= 1000; ms += tv.tv_usec / 1000`. -/
def clockFromTimeval (tv : Timeval) : Nat :=
  tv.tv_sec * 1000 + tv.tv_usec / 1000

/-- The platform state visible to the Apple hardware-tick path of
`nni_clock`: the current `mach_absolute_time()` counter and the
`mach_timebase_info` scale factor. -/
structure MachPlatform where
  ticks : Nat
  numer : Nat
  denom : Nat
deriving DecidableEq, Repr

/-- One invocation of the hardware-tick path of `nni_clock`:
`return ((absolute_time * time_base_info.numer) / time_base_info.denom) / 10000000`.
The second component counts the `mach_timebase_info` reads the call
performs against the platform: the source calls it unconditionally in
the function body, once per invocation. -/
def nni_clock_mach (p : MachPlatform) : Nat × Nat :=
  (p.ticks * p.numer / p.denom / 10000000, 1)

/-- Total number of `mach_timebase_info` reads performed by `n`
successive hardware-tick `nni_clock` calls. -/
def machReadsOfCalls (p : MachPlatform) : Nat → Nat
  | 0 => 0
  | n + 1 => machReadsOfCalls p n + (nni_clock_mach p).2

/-- Outcome of a `nni_clock` call: either a millisecond value is
returned, or the process aborts via `nni_panic` with a diagnostic
message. -/
inductive ClockResult where
  | ok (ms : Nat)
  | abort (msg : String)
deriving DecidableEq, Repr

/-- The modern monotonic path of `nni_clock`, as a function of the
`clock_gettime` outcome (an errno on failure, a `Timespec` on success)
and of the platform error-description function (`strerror`):
on failure it panics with `clock_gettime failed: <strerror(errno)>`,
otherwise it returns the converted milliseconds. -/
def nni_clock_posix (desc : Nat → String) (r : Except Nat Timespec) : ClockResult :=
  match r with
  | Except.error e => ClockResult.abort ("clock_gettime failed: " ++ desc e)
  | Except.ok ts => ClockResult.ok (clockFromTimespec ts)

/-- The legacy path of `nni_clock`, as a function of the `gettimeofday`
outcome: on failure it panics with `gettimeofday failed: <strerror(errno)>`,
otherwise it returns the converted milliseconds. -/
def nni_clock_gtod (desc : Nat → String) (r : Except Nat Timeval) : ClockResult :=
  match r with
  | Except.error e => ClockResult.abort ("gettimeofday failed: " ++ desc e)
  | Except.ok tv => ClockResult.ok (clockFromTimeval tv)

/-- The Apple build of `nni_clock`: the runtime availability probe
(`__builtin_available(macOS 10.12, *)`) selects the `clock_gettime`
path when it succeeds; otherwise the hardware-tick path runs, whose
time query (`mach_absolute_time`) has no failing case. -/
def nni_clock_apple (desc : Nat → String) (avail : Bool)
    (gettime : Except Nat Timespec) (p : MachPlatform) : ClockResult :=
  if avail then nni_clock_posix desc gettime
  else ClockResult.ok (nni_clock_mach p).1

/-- The conversion at the top of `nni_msleep`:
`ts.tv_sec = ms / 1000; ts.tv_nsec = (ms % 1000) * 1000000`. -/
def msToTimespec (ms : Nat) : Timespec :=
  ⟨ms / 1000, ms % 1000 * 1000000⟩

/-- One kernel response to a `nanosleep(&ts, &ts)` call: either the
call returns 0 (the full requested time elapsed), or it returns a
nonzero value with errno `errno`, leaving the buffer holding `rem`
(on `EINTR` the kernel writes the unslept remainder there; on other
errors the buffer keeps whatever it held). -/
inductive NsEvent where
  | complete
  | fail (rem : Timespec) (errno : Nat)
deriving DecidableEq, Repr

/-- The retry loop of the nanosleep-based `nni_msleep`, run against a
list of kernel responses:
`while (ts.tv_sec || ts.tv_nsec) { if (nanosleep(&ts, &ts) == 0) break; }`.
Returns the total guaranteed slept nanoseconds (an interrupted call of
request `ts` leaving remainder `rem` slept `tsTotalNs ts - tsTotalNs rem`;
a completing call slept its full request) and whether the loop exited
(`false` means the response list ran out with the buffer nonzero). -/
def nsleepRun : Timespec → List NsEvent → Nat × Bool
  | ts, [] =>
    if ts.tv_sec ≠ 0 ∨ ts.tv_nsec ≠ 0 then (0, false) else (0, true)
  | ts, e :: rest =>
    if ts.tv_sec ≠ 0 ∨ ts.tv_nsec ≠ 0 then
      match e with
      | NsEvent.complete => (tsTotalNs ts, true)
      | NsEvent.fail rem _ =>
        (tsTotalNs ts - tsTotalNs rem + (nsleepRun rem rest).1, (nsleepRun rem rest).2)
    else (0, true)

/-- The sequence of request buffers the retry loop of `nni_msleep`
passes to `nanosleep`, run against a list of kernel responses. The
loop checks `ts.tv_sec || ts.tv_nsec` before each call and retries
with whatever the buffer holds after a nonzero return. -/
def nsleepRequests : Timespec → List NsEvent → List Timespec
  | ts, [] =>
    if ts.tv_sec ≠ 0 ∨ ts.tv_nsec ≠ 0 then [ts] else []
  | ts, e :: rest =>
    if ts.tv_sec ≠ 0 ∨ ts.tv_nsec ≠ 0 then
      match e with
      | NsEvent.complete => [ts]
      | NsEvent.fail rem _ => ts :: nsleepRequests rem rest
    else []

/-- The nanosleep-based `nni_msleep` on a non-negative duration `ms`,
run against a list of kernel responses. -/
def nni_msleep_ns (ms : Nat) (events : List NsEvent) : Nat × Bool :=
  nsleepRun (msToTimespec ms) events

/-- The `nanosleep` request sequence issued by the nanosleep-based
`nni_msleep` on duration `ms`. -/
def nni_msleep_ns_requests (ms : Nat) (events : List NsEvent) : List Timespec :=
  nsleepRequests (msToTimespec ms) events

/-- The wait loop of the poll-based `nni_msleep`, run against the list
of successive `nni_clock` readings observed after each `poll`:
`while (now < expire) { poll(&pfd, 0, (int)(expire - now)); now = nni_clock(); }`.
Returns the final value of `now`, whether the loop exited (`false`
means the reading list ran out first), and the number of `poll` calls
performed. -/
def pollSleepRun : Nat → Nat → List Nat → Nat × Bool × Nat
  | now, expire, [] =>
    if now < expire then (now, false, 0) else (now, true, 0)
  | now, expire, r :: rest =>
    if now < expire then
      ((pollSleepRun r expire rest).1, (pollSleepRun r expire rest).2.1,
        (pollSleepRun r expire rest).2.2 + 1)
    else (now, true, 0)

/-- The expiration instant computed by the poll-based `nni_msleep`:
`expire = now + ms`. Modelled from the spec: the typedefs of `nni_time`
and `nni_duration` live outside this fragment; the spec gives the clock
value the unsigned 64-bit type `u64` and makes the duration a signed
integer count of milliseconds, so the C addition converts `ms` to
`uint64_t` and reduces modulo `2 ^ 64`. -/
def pollExpire (now : Nat) (ms : Int) : Nat :=
  (((now : Int) + ms) % (2 ^ 64 : Int)).toNat

/-- The poll-based `nni_msleep` on duration `ms`, starting from the
clock reading `now` and run against the list of subsequent readings. -/
def nni_msleep_poll (now : Nat) (ms : Int) (readings : List Nat) : Nat × Bool × Nat :=
  pollSleepRun now (pollExpire now ms) readings

/-- Erase the errno reported by a failed `nanosleep` call, keeping the
buffer contents. -/
def eraseErrno : NsEvent → NsEvent
  | NsEvent.complete => NsEvent.complete
  | NsEvent.fail rem _ => NsEvent.fail rem 0

/-! ### Helper lemmas shared by the claim theorems -/

/-- The millisecond value of the modern backend is the truncated
division of the total nanoseconds by one million. -/
theorem clockFromTimespec_eq_totalNs_div (ts : Timespec) :
    clockFromTimespec ts = tsTotalNs ts / 1000000 := by
  unfold clockFromTimespec tsTotalNs
  omega

/-- The millisecond value of the legacy backend is the truncated
division of the total microseconds by one thousand. -/
theorem clockFromTimeval_eq_totalUs_div (tv : Timeval) :
    clockFromTimeval tv = tvTotalUs tv / 1000 := by
  unfold clockFromTimeval tvTotalUs
  omega

/-- The initial `nanosleep` request of `nni_msleep` represents exactly
`ms * 1000000` nanoseconds. -/
theorem tsTotalNs_msToTimespec (ms : Nat) :
    tsTotalNs (msToTimespec ms) = ms * 1000000 := by
  unfold tsTotalNs msToTimespec
  simp only
  omega

/-- If the nanosleep retry loop exits, the total slept nanoseconds are
at least the nanoseconds of the initial request buffer. -/
theorem nsleepRun_done_le (events : List NsEvent) :
    ∀ ts : Timespec, (nsleepRun ts events).2 = true →
      tsTotalNs ts ≤ (nsleepRun ts events).1 := by
  induction events with
  | nil =>
    intro ts h
    by_cases hc : ts.tv_sec ≠ 0 ∨ ts.tv_nsec ≠ 0
    · simp [nsleepRun, hc] at h
    · simp only [nsleepRun, hc, if_false]
      unfold tsTotalNs
      push_neg at hc
      omega
  | cons e rest ih =>
    intro ts h
    by_cases hc : ts.tv_sec ≠ 0 ∨ ts.tv_nsec ≠ 0
    · cases e with
      | complete => simp [nsleepRun, hc]
      | fail rem err =>
        simp only [nsleepRun, hc, if_true] at h ⊢
        have := ih rem h
        omega
    · simp only [nsleepRun, hc, if_false]
      unfold tsTotalNs
      push_neg at hc
      omega

/-- If the poll wait loop exits, the final clock reading is at least
the expiration instant. -/
theorem pollSleepRun_done_ge (readings : List Nat) :
    ∀ now expire : Nat, (pollSleepRun now expire readings).2.1 = true →
      expire ≤ (pollSleepRun now expire readings).1 := by
  induction readings with
  | nil =>
    intro now expire h
    by_cases hc : now < expire
    · simp [pollSleepRun, hc] at h
    · simp only [pollSleepRun, hc, if_false]
      omega
  | cons r rest ih =>
    intro now expire h
    by_cases hc : now < expire
    · simp only [pollSleepRun, hc, if_true] at h ⊢
      exact ih r expire h
    · simp only [pollSleepRun, hc, if_false]
      omega

/-- If the expiration instant is already reached, the poll wait loop
exits immediately, performing no `poll` call. -/
theorem pollSleepRun_of_expire_le (now expire : Nat) (readings : List Nat)
    (h : expire ≤ now) : pollSleepRun now expire readings = (now, true, 0) := by
  have hc : ¬now < expire := by omega
  cases readings with
  | nil => simp [pollSleepRun, hc]
  | cons r rest => simp [pollSleepRun, hc]

/-- The first `nanosleep` request is the initial buffer when it is
nonzero; a zero buffer produces no call at all. -/
theorem nsleepRequests_get_zero (events : List NsEvent) (ts : Timespec) :
    (nsleepRequests ts events).get? 0 =
      if ts.tv_sec ≠ 0 ∨ ts.tv_nsec ≠ 0 then some ts else none := by
  by_cases hc : ts.tv_sec ≠ 0 ∨ ts.tv_nsec ≠ 0
  · cases events with
    | nil => simp [nsleepRequests, hc]
    | cons e rest =>
      cases e with
      | complete => simp [nsleepRequests, hc]
      | fail rem err => simp [nsleepRequests, hc]
  · cases events with
    | nil => simp [nsleepRequests, hc]
    | cons e rest => simp [nsleepRequests, hc]

example : clockFromTimespec ⟨3, 2500000⟩ = 3002 := by decide
example : clockFromTimeval ⟨3, 2500⟩ = 3002 := by decide
example : (nni_clock_mach ⟨10000000, 1, 1⟩).1 = 1 := by decide
example : nni_msleep_ns 1 [NsEvent.complete] = (1000000, true) := by decide
example :
    nni_msleep_ns 2 [NsEvent.fail ⟨0, 1000000⟩ 4, NsEvent.complete] = (2000000, true) := by
  decide
example : nni_msleep_ns 0 [NsEvent.complete] = (0, true) := by decide
example : nni_msleep_ns_requests 0 [] = [] := by decide
example : pollSleepRun 0 1 [5] = (5, true, 1) := by decide

/-! ### Claim C1 -/

/-- C1: the hardware-tick conversion is claimed to equal
`ticks * numer / denom / 1000000`. The code divides by `10000000`
instead: at ticks = 10000000 with a 1/1 scale factor the code returns
1 ms where the correct nanosecond-to-millisecond conversion gives
10 ms, a value ten times smaller. -/
theorem mach_clock_divisor_defect :
    (nni_clock_mach ⟨10000000, 1, 1⟩).1 = 1 ∧
    10000000 * 1 / 1 / 1000000 = 10 ∧
    (nni_clock_mach ⟨10000000, 1, 1⟩).1 ≠ 10000000 * 1 / 1 / 1000000 := by
  decide

/-! ### Claim C2 -/

/-- C2 counterexample: on the legacy wall-clock backend the claim
`t2 >= t1` fails when the time-of-day source is adjusted backward
between the calls: with the first `gettimeofday` reading at 1 s, 0 us
and the second at 0 s, 0 us, the second Clock value (0 ms) is strictly
below the first (1000 ms). -/
theorem legacy_clock_backward_counterexample :
    clockFromTimeval ⟨0, 0⟩ < clockFromTimeval ⟨1, 0⟩ := by
  decide

/-- C2 (amended): each backend conversion is monotone in its
underlying reading, so `t2 >= t1` holds whenever the underlying source
does not run backward — guaranteed on the monotonic and hardware-tick
backends, but on the legacy wall-clock backend only when the
time-of-day source is not adjusted backward between the calls. -/
theorem clock_monotone_in_source :
    (∀ r1 r2 : Timespec, tsTotalNs r1 ≤ tsTotalNs r2 →
      clockFromTimespec r1 ≤ clockFromTimespec r2) ∧
    (∀ p1 p2 : MachPlatform, p1.numer = p2.numer → p1.denom = p2.denom →
      p1.ticks ≤ p2.ticks → (nni_clock_mach p1).1 ≤ (nni_clock_mach p2).1) ∧
    (∀ v1 v2 : Timeval, tvTotalUs v1 ≤ tvTotalUs v2 →
      clockFromTimeval v1 ≤ clockFromTimeval v2) := by
  refine ⟨?_, ?_, ?_⟩
  · intro r1 r2 h
    rw [clockFromTimespec_eq_totalNs_div, clockFromTimespec_eq_totalNs_div]
    exact Nat.div_le_div_right h
  · intro p1 p2 hn hd ht
    unfold nni_clock_mach
    simp only
    rw [hn, hd]
    exact Nat.div_le_div_right (Nat.div_le_div_right (Nat.mul_le_mul_right _ ht))
  · intro v1 v2 h
    rw [clockFromTimeval_eq_totalUs_div, clockFromTimeval_eq_totalUs_div]
    exact Nat.div_le_div_right h

/-- C2 witness: the monotonicity theorem applied at concrete readings
on each backend. -/
theorem clock_monotone_in_source_witness :
    clockFromTimespec ⟨1, 0⟩ ≤ clockFromTimespec ⟨2, 500⟩ ∧
    (nni_clock_mach ⟨5, 3, 2⟩).1 ≤ (nni_clock_mach ⟨6, 3, 2⟩).1 ∧
    clockFromTimeval ⟨1, 0⟩ ≤ clockFromTimeval ⟨2, 500⟩ :=
  ⟨clock_monotone_in_source.1 ⟨1, 0⟩ ⟨2, 500⟩ (by decide),
   clock_monotone_in_source.2.1 ⟨5, 3, 2⟩ ⟨6, 3, 2⟩ rfl rfl (by decide),
   clock_monotone_in_source.2.2 ⟨1, 0⟩ ⟨2, 500⟩ (by decide)⟩

/-! ### Claim C5 -/

/-- C5: the modern backend returns `tv_sec * 1000 + tv_nsec / 1000000`,
which is the truncated division of the total nanoseconds by one
million; in particular, writing the nanosecond field as
`q * 1000000 + r` with `r < 1000000`, the sub-millisecond remainder
`r` is discarded (truncation, not rounding). -/
theorem modern_clock_truncation :
    ∀ ts : Timespec,
      clockFromTimespec ts = tsTotalNs ts / 1000000 ∧
      ∀ q r : Nat, ts.tv_nsec = q * 1000000 + r → r < 1000000 →
        clockFromTimespec ts = ts.tv_sec * 1000 + q := by
  intro ts
  constructor
  · exact clockFromTimespec_eq_totalNs_div ts
  · intro q r hqr hr
    unfold clockFromTimespec
    omega

/-- C5 witness: at 7 s and 2999999 ns the conversion yields
`7 * 1000 + 2`, discarding the 999999 ns remainder. -/
theorem modern_clock_truncation_witness :
    clockFromTimespec ⟨7, 2999999⟩ = tsTotalNs ⟨7, 2999999⟩ / 1000000 ∧
    clockFromTimespec ⟨7, 2999999⟩ = 7 * 1000 + 2 :=
  ⟨(modern_clock_truncation ⟨7, 2999999⟩).1,
   (modern_clock_truncation ⟨7, 2999999⟩).2 2 999999 (by decide) (by decide)⟩

/-! ### Claim C6 -/

/-- C6 counterexample: the claim says the scale factor is read from
the platform only once, on first use, so over any number of Clock
calls at most one `mach_timebase_info` read happens. In the code the
read is in the body of `nni_clock` with no once-latch: two calls
perform two reads. -/
theorem mach_timebase_reread_counterexample :
    machReadsOfCalls ⟨1, 1, 1⟩ 2 = 2 ∧ machReadsOfCalls ⟨1, 1, 1⟩ 2 ≠ 1 := by
  decide

/-- C6 (amended): every hardware-tick `nni_clock` call reads the
`mach_timebase_info` scale factor from the platform — `n` calls
perform exactly `n` reads; the value is not cached across calls (the
source comments that making it a one-time read was considered and
deliberately not done). -/
theorem mach_timebase_read_every_call :
    ∀ (p : MachPlatform) (n : Nat), machReadsOfCalls p n = n := by
  intro p n
  induction n with
  | zero => rfl
  | succ k ih => simp [machReadsOfCalls, nni_clock_mach, ih]

/-! ### Claim C3 -/

/-- C3: for every non-negative duration, both sleep strategies block
for at least the requested time. On the nanosleep strategy, whenever
the retry loop exits, the total slept nanoseconds are at least
`ms * 1000000`, even across early-returning interrupted calls. On the
poll strategy, whenever the wait loop exits, the final clock reading
is at least `before + d`, so `after - before >= d`. -/
theorem msleep_lower_bound :
    (∀ (ms : Nat) (events : List NsEvent), (nni_msleep_ns ms events).2 = true →
      ms * 1000000 ≤ (nni_msleep_ns ms events).1) ∧
    (∀ (before d : Nat) (readings : List Nat), before + d < 2 ^ 64 →
      (nni_msleep_poll before (d : Int) readings).2.1 = true →
      before + d ≤ (nni_msleep_poll before (d : Int) readings).1) := by
  constructor
  · intro ms events h
    have h1 := nsleepRun_done_le events (msToTimespec ms) h
    rw [tsTotalNs_msToTimespec] at h1
    exact h1
  · intro before d readings hlt h
    have he : pollExpire before (d : Int) = before + d := by
      unfold pollExpire
      have h1 : (before : Int) + (d : Int) = ((before + d : Nat) : Int) := by
        push_cast
        ring
      rw [h1, Int.emod_eq_of_lt (Int.natCast_nonneg _) (by exact_mod_cast hlt),
        Int.toNat_natCast]
    simp only [nni_msleep_poll, he] at h ⊢
    exact pollSleepRun_done_ge readings before (before + d) h

/-- C3 witness: a 1 ms sleep completing in one nanosleep call slept at
least 1000000 ns; a 1 ms poll sleep starting at clock 0 and observing
reading 5 exits with the clock at least 1. -/
theorem msleep_lower_bound_witness :
    1 * 1000000 ≤ (nni_msleep_ns 1 [NsEvent.complete]).1 ∧
    0 + 1 ≤ (nni_msleep_poll 0 (1 : Int) [5]).1 :=
  ⟨msleep_lower_bound.1 1 [NsEvent.complete] (by decide),
   msleep_lower_bound.2 0 1 [5] (by norm_num) (by decide)⟩

/-! ### Claim C4 -/

/-- C4: when the `i`-th `nanosleep` call of the retry loop is
interrupted and the kernel reports remainder `rem`, the loop issues a
next call requesting exactly `rem` when it is nonzero, and issues no
further call when the remainder is zero; in either case the
interruption never reaches the caller (the loop retries or exits
normally, and `nni_msleep` returns no error). -/
theorem msleep_retry_exact_remainder :
    ∀ (events : List NsEvent) (ts : Timespec) (i : Nat) (rem : Timespec) (err : Nat),
      events.get? i = some (NsEvent.fail rem err) →
      (nsleepRequests ts events).get? i ≠ none →
      ((rem.tv_sec ≠ 0 ∨ rem.tv_nsec ≠ 0) →
        (nsleepRequests ts events).get? (i + 1) = some rem) ∧
      (rem.tv_sec = 0 ∧ rem.tv_nsec = 0 →
        (nsleepRequests ts events).get? (i + 1) = none) := by
  intro events
  induction events with
  | nil =>
    intro ts i rem err hev hreq
    simp at hev
  | cons e rest ih =>
    intro ts i rem err hev hreq
    by_cases hc : ts.tv_sec ≠ 0 ∨ ts.tv_nsec ≠ 0
    · cases i with
      | zero =>
        simp only [List.get?_cons_zero, Option.some_inj] at hev
        subst hev
        simp only [nsleepRequests, hc, if_true, List.get?_cons_succ]
        rw [nsleepRequests_get_zero]
        constructor
        · intro hrem
          simp [hrem]
        · intro hrem
          have hno : ¬(rem.tv_sec ≠ 0 ∨ rem.tv_nsec ≠ 0) := by
            push_neg
            exact hrem
          simp [hno]
      | succ j =>
        simp only [List.get?_cons_succ] at hev
        cases e with
        | complete =>
          exfalso
          apply hreq
          simp [nsleepRequests, hc]
        | fail rem2 err2 =>
          simp only [nsleepRequests, hc, if_true, List.get?_cons_succ] at hreq ⊢
          exact ih rem2 j rem err hev hreq
    · exfalso
      apply hreq
      simp [nsleepRequests, hc]

/-- C4 witness: a 2 ms sleep interrupted with 1 ms left retries with a
request of exactly 0 s, 1000000 ns. -/
theorem msleep_retry_exact_remainder_witness :
    (nni_msleep_ns_requests 2 [NsEvent.fail ⟨0, 1000000⟩ 4, NsEvent.complete]).get? 1 =
      some ⟨0, 1000000⟩ :=
  (msleep_retry_exact_remainder [NsEvent.fail ⟨0, 1000000⟩ 4, NsEvent.complete]
    (msToTimespec 2) 0 ⟨0, 1000000⟩ 4 (by decide) (by decide)).1 (by decide)

/-! ### Claim C7 -/

/-- C7: on each backend whose time query can fail, a failing syscall
never yields a Clock value and never yields a recoverable error: the
call aborts with a diagnostic carrying the system error description
(`strerror`), and conversely every returned value comes from a
successful syscall reading (on the hardware-tick path the query
`mach_absolute_time` has no failing case). -/
theorem clock_syscall_failure_fatal :
    ∀ desc : Nat → String,
      (∀ e, nni_clock_posix desc (Except.error e) =
        ClockResult.abort ("clock_gettime failed: " ++ desc e)) ∧
      (∀ r ms, nni_clock_posix desc r = ClockResult.ok ms →
        ∃ ts, r = Except.ok ts ∧ ms = clockFromTimespec ts) ∧
      (∀ e, nni_clock_gtod desc (Except.error e) =
        ClockResult.abort ("gettimeofday failed: " ++ desc e)) ∧
      (∀ r ms, nni_clock_gtod desc r = ClockResult.ok ms →
        ∃ tv, r = Except.ok tv ∧ ms = clockFromTimeval tv) ∧
      (∀ e p, nni_clock_apple desc true (Except.error e) p =
        ClockResult.abort ("clock_gettime failed: " ++ desc e)) ∧
      (∀ avail g p ms, nni_clock_apple desc avail g p = ClockResult.ok ms →
        (∃ ts, g = Except.ok ts ∧ ms = clockFromTimespec ts) ∨
        (avail = false ∧ ms = (nni_clock_mach p).1)) := by
  intro desc
  refine ⟨fun e => rfl, ?_, fun e => rfl, ?_, fun e p => rfl, ?_⟩
  · intro r ms h
    cases r with
    | error e => simp [nni_clock_posix] at h
    | ok ts =>
      simp only [nni_clock_posix, ClockResult.ok.injEq] at h
      exact ⟨ts, rfl, h.symm⟩
  · intro r ms h
    cases r with
    | error e => simp [nni_clock_gtod] at h
    | ok tv =>
      simp only [nni_clock_gtod, ClockResult.ok.injEq] at h
      exact ⟨tv, rfl, h.symm⟩
  · intro avail g p ms h
    cases avail with
    | false =>
      simp only [nni_clock_apple, Bool.false_eq_true, if_false,
        ClockResult.ok.injEq] at h
      exact Or.inr ⟨rfl, h.symm⟩
    | true =>
      simp only [nni_clock_apple, if_true] at h
      cases g with
      | error e => simp [nni_clock_posix] at h
      | ok ts =>
        simp only [nni_clock_posix, ClockResult.ok.injEq] at h
        exact Or.inl ⟨ts, rfl, h.symm⟩

/-- C7 witness: a failing `clock_gettime` with errno 22 aborts with the
diagnostic carrying the description, and a successful reading of
1 s, 0 ns yields the value 1000 ms. -/
theorem clock_syscall_failure_fatal_witness :
    (nni_clock_posix (fun _ => "bad clock id") (Except.error 22) =
      ClockResult.abort ("clock_gettime failed: " ++ "bad clock id")) ∧
    (∃ ts, (Except.ok ⟨1, 0⟩ : Except Nat Timespec) = Except.ok ts ∧
      1000 = clockFromTimespec ts) :=
  ⟨(clock_syscall_failure_fatal (fun _ => "bad clock id")).1 22,
   (clock_syscall_failure_fatal (fun _ => "bad clock id")).2.1
     (Except.ok ⟨1, 0⟩) 1000 rfl⟩

/-! ### Claim C8 -/

/-- The initial buffer for a zero-millisecond sleep is all zero. -/
theorem msToTimespec_zero : msToTimespec 0 = ⟨0, 0⟩ := rfl

/-- C8: a zero-duration sleep returns promptly on both strategies with
no wait syscall at all: the nanosleep loop condition
`ts.tv_sec || ts.tv_nsec` is false at entry, so the loop exits with no
`nanosleep` call, and the poll loop starts with `expire = now`, so no
`poll` call happens. -/
theorem zero_duration_sleep_prompt :
    (∀ events : List NsEvent, nni_msleep_ns 0 events = (0, true) ∧
      nni_msleep_ns_requests 0 events = []) ∧
    (∀ (before : Nat) (readings : List Nat), before < 2 ^ 64 →
      nni_msleep_poll before (0 : Int) readings = (before, true, 0)) := by
  constructor
  · intro events
    cases events with
    | nil =>
      refine ⟨?_, ?_⟩
      · simp [nni_msleep_ns, nsleepRun, msToTimespec_zero]
      · simp [nni_msleep_ns_requests, nsleepRequests, msToTimespec_zero]
    | cons e rest =>
      refine ⟨?_, ?_⟩
      · simp [nni_msleep_ns, nsleepRun, msToTimespec_zero]
      · simp [nni_msleep_ns_requests, nsleepRequests, msToTimespec_zero]
  · intro before readings h
    have he : pollExpire before (0 : Int) = before := by
      unfold pollExpire
      rw [add_zero, Int.emod_eq_of_lt (Int.natCast_nonneg _) (by exact_mod_cast h),
        Int.toNat_natCast]
    simp only [nni_msleep_poll, he]
    exact pollSleepRun_of_expire_le before before readings (le_refl _)

/-- C8 witness: a zero-duration poll sleep starting at clock 3 exits
at clock 3 with zero poll calls, and a zero-duration nanosleep sleep
issues no request. -/
theorem zero_duration_sleep_prompt_witness :
    nni_msleep_poll 3 (0 : Int) [] = (3, true, 0) ∧
    nni_msleep_ns_requests 0 [NsEvent.complete] = [] :=
  ⟨zero_duration_sleep_prompt.2 3 [] (by norm_num),
   (zero_duration_sleep_prompt.1 [NsEvent.complete]).2⟩

/-! ### Claim C9 -/

/-- C9: the nanosleep retry loop treats every nonzero `nanosleep`
return alike — it checks only whether the return is zero, so both the
slept-time accounting and the request sequence are unchanged when
every reported errno is replaced by another: no error cause is
distinguished, surfaced, or treated as fatal. -/
theorem nanosleep_errno_agnostic :
    ∀ (events : List NsEvent) (ts : Timespec),
      nsleepRun ts (events.map eraseErrno) = nsleepRun ts events ∧
      nsleepRequests ts (events.map eraseErrno) = nsleepRequests ts events := by
  intro events
  induction events with
  | nil => exact fun ts => ⟨rfl, rfl⟩
  | cons e rest ih =>
    intro ts
    by_cases hc : ts.tv_sec ≠ 0 ∨ ts.tv_nsec ≠ 0
    · cases e with
      | complete =>
        refine ⟨?_, ?_⟩
        · simp [nsleepRun, eraseErrno, List.map, hc]
        · simp [nsleepRequests, eraseErrno, List.map, hc]
      | fail rem err =>
        refine ⟨?_, ?_⟩
        · simp [nsleepRun, eraseErrno, List.map, hc, (ih rem).1]
        · simp [nsleepRequests, eraseErrno, List.map, hc, (ih rem).2]
    · refine ⟨?_, ?_⟩
      · cases e <;> simp [nsleepRun, eraseErrno, List.map, hc]
      · cases e <;> simp [nsleepRequests, eraseErrno, List.map, hc]

/-! ### Claim C10 -/

/-- C10 counterexample: with the clock at 0 and duration -1, the
expiration `now + ms` computed in unsigned 64-bit arithmetic wraps to
`2 ^ 64 - 1`, which exceeds the current time, so the wait loop body
does execute: one `poll` call is performed, contrary to the claim that
for every negative duration no wait syscall occurs. -/
theorem poll_sleep_negative_wraparound :
    pollExpire 0 (-1) = 18446744073709551615 ∧
    (nni_msleep_poll 0 (-1) [18446744073709551615]).2.2 = 1 := by
  have h : pollExpire 0 (-1) = 18446744073709551615 := by
    unfold pollExpire
    norm_num
    rfl
  refine ⟨h, ?_⟩
  simp only [nni_msleep_poll, h]
  norm_num [pollSleepRun]

/-- C10 (amended): for a negative duration whose magnitude does not
exceed the current clock value, the computed expiration does not
exceed the current time, the wait loop body never executes, and the
call returns immediately with zero poll syscalls; when the clock value
is below the magnitude, the unsigned expiration wraps past the clock
instead. -/
theorem poll_sleep_negative_immediate :
    ∀ (now : Nat) (d : Int) (readings : List Nat), d < 0 → d.natAbs ≤ now →
      now < 2 ^ 64 →
      pollExpire now d ≤ now ∧ nni_msleep_poll now d readings = (now, true, 0) := by
  intro now d readings hd habs hlt
  have h1 : (now : Int) + d = ((now - d.natAbs : Nat) : Int) := by
    omega
  have he : pollExpire now d = now - d.natAbs := by
    unfold pollExpire
    rw [h1, Int.emod_eq_of_lt (Int.natCast_nonneg _)
      (by exact_mod_cast lt_of_le_of_lt (Nat.sub_le now d.natAbs) hlt),
      Int.toNat_natCast]
  refine ⟨?_, ?_⟩
  · rw [he]
    omega
  · simp only [nni_msleep_poll, he]
    exact pollSleepRun_of_expire_le now (now - d.natAbs) readings (Nat.sub_le _ _)

/-- C10 witness: at clock 5 with duration -3 the poll sleep returns
immediately with zero poll calls. -/
theorem poll_sleep_negative_immediate_witness :
    nni_msleep_poll 5 (-3) [] = (5, true, 0) :=
  (poll_sleep_negative_immediate 5 (-3) [] (by norm_num) (by decide) (by norm_num)).2
